import Mathlib

/-!
Verification development for the realtime session client of the
gemini-2-clippo repository (Angular + Gemini Live API).

The embedding below follows the ClippoService class (src/unnamed/part_003):
the tool-call choreographer (handleMoveCursorInSequence, getPointsFromImage,
raiseMoveCursorEvent, captureLastFrame), the session facade operations
(send, sendRealtimeInput, start, stop) and the wsClient event listeners
(setupEventListeners).  Numbers coming from JavaScript are modelled as
exact rationals; per-point delays in the tool call are seconds, cursor
events are scheduled in milliseconds (delay * 1000, as in the source).

The files ws-client.ts (MultimodalLiveClient) and audio-streamer.ts
(AudioStreamer) are imported by the sources but are not part of the
source snapshot; the few of their operations the claims need are
modelled from the specification and marked as such in doc comments.
-/

/-- One entry of the `points` argument of the move_cursor_sequence tool
call: a natural-language description of the target and the delay in
seconds to wait after the previous point (part_003, tool declaration). -/
structure CursorPoint where
  description : String
  delay : ℚ
deriving Repr, DecidableEq

/-- A resolved vision point in `[y, x]` order (row, column), normalized
to the 0-1000 space, as requested by the prompt in getPointsFromImage. -/
structure RPoint where
  y : ℚ
  x : ℚ
deriving Repr, DecidableEq

/-- The JSON shape of one parsed vision answer.  The loop in
handleMoveCursorInSequence reads it as
`Array.isArray(locations[i]) ? locations[i][0] : locations[i].point`:
either a JSON array of points (the code takes element 0) or an object
with an optional `point` field.  A missing entry is falsy in JS and is
modelled as `none`; present entries are modelled as well-formed
two-element `[y, x]` pairs. -/
inductive LookupJson where
  | arr (points : List RPoint)
  | obj (point : Option RPoint)
deriving Repr, DecidableEq

/-- The value the code destructures for one location, mirroring
`Array.isArray(locations[i]) ? locations[i][0] : locations[i].point`
followed by the `if (point)` truthiness test. -/
def extractPoint : LookupJson → Option RPoint
  | LookupJson.arr ps => ps.head?
  | LookupJson.obj p => p

/-- Outcome of one per-point vision lookup promise inside
getPointsFromImage: either it fulfills with parsed JSON, or it rejects
(the generateContent call failed or JSON.parse threw on unparseable
model output). -/
inductive LookupOutcome where
  | ok (json : LookupJson)
  | err
deriving Repr, DecidableEq

/-- Arguments of a function call; for move_cursor_sequence this is the
ordered list of cursor points (`const { points } = functionCalls[0].args`). -/
structure FunctionArgs where
  points : List CursorPoint
deriving Repr, DecidableEq

/-- One function call of a tool-call request. -/
structure FunctionCall where
  name : String
  args : FunctionArgs
deriving Repr, DecidableEq

/-- A ToolCallRequest as delivered by the `toolcall` event: a list of
function calls. -/
structure ToolCall where
  functionCalls : List FunctionCall
deriving Repr, DecidableEq

/-- A scheduled cursor event: raiseMoveCursorEvent(x, y) wrapped in
`setTimeout(..., cumulativeDelay)`; `atMs` is the cumulative delay in
milliseconds at which the emission fires, measured from the moment the
scheduling loop runs. -/
structure CursorEvent where
  atMs : ℚ
  x : ℚ
  y : ℚ
deriving Repr, DecidableEq

/-- One vision lookup request issued by getPointsFromImage: the image
payload sent inline and the description of the target. -/
structure LookupRequest where
  imageData : String
  description : String
deriving Repr, DecidableEq

/-- Observable outcome of one run of handleMoveCursorInSequence: which
frames were captured, which lookups were issued, and which cursor
events were scheduled. -/
structure RunResult where
  capturedFrames : List String
  lookupsIssued : List LookupRequest
  events : List CursorEvent
deriving Repr, DecidableEq

/-- The empty run: nothing captured, nothing issued, nothing scheduled. -/
def emptyRun : RunResult :=
  RunResult.mk [] [] []

/-- JS `startsWith` on character lists. -/
def startsWithSeq : List Char → List Char → Bool
  | _, [] => true
  | [], _ :: _ => false
  | a :: as, b :: bs => a = b && startsWithSeq as bs

/-- JS `includes` on character lists: does the haystack contain the
needle as a contiguous subsequence. -/
def containsSeq : List Char → List Char → Bool
  | [], needle => needle.isEmpty
  | a :: as, needle => startsWithSeq (a :: as) needle || containsSeq as needle

/-- `base64Image.includes("data:image")` from getPointsFromImage. -/
def includesDataImage (s : String) : Bool :=
  containsSeq s.toList "data:image".toList

/-- Index of the first comma, as JS `indexOf(",")` (none for -1). -/
def jsIndexOfComma : List Char → Option Nat
  | [] => none
  | c :: cs => if c = ',' then some 0 else (jsIndexOfComma cs).map (fun i => i + 1)

/-- `base64Image.slice(base64Image.indexOf(",") + 1)`: with no comma,
indexOf is -1 and slice(0) returns the whole string. -/
def jsSliceAfterComma (s : String) : String :=
  match jsIndexOfComma s.toList with
  | some i => String.mk (s.toList.drop (i + 1))
  | none => s

/-- The per-point image payload computed inside getPointsFromImage:
`base64Image.includes("data:image") ? base64Image.slice(indexOf(",")+1)
: base64Image`. -/
def imageDataOf (base64Image : String) : String :=
  if includesDataImage base64Image then jsSliceAfterComma base64Image else base64Image

/-- Semantics of `Promise.all` over the per-point lookup promises: if
every promise fulfills, the list of results in order; if any promise
rejects, the whole aggregate rejects and no result list is produced. -/
def promiseAll : List LookupOutcome → Option (List LookupJson)
  | [] => some []
  | LookupOutcome.ok j :: rest => (promiseAll rest).map (fun js => j :: js)
  | LookupOutcome.err :: _ => none

/-- External collaborators of the choreographer: the result of
captureLastFrame on the current screen stream (none when the capture
throws), and the vision lookup oracle, a function of the inline image
payload and the point description. -/
structure VisionEnv where
  captureResult : Option String
  lookup : String → String → LookupOutcome

/-- Requests issued and aggregate result of one getPointsFromImage call
(part_003 lines 193-228): every point is mapped to one lookup against
the same base64Image, and the results are joined with Promise.all. -/
structure GetPointsRun where
  requests : List LookupRequest
  resolved : Option (List LookupJson)
deriving Repr, DecidableEq

/-- Embedding of getPointsFromImage: strip the data-URL prefix once per
point (same input, same value), issue one lookup per point against that
image payload, and join the per-point promises with Promise.all. -/
def getPointsFromImage (lookup : String → String → LookupOutcome)
    (base64Image : String) (points : List CursorPoint) : GetPointsRun :=
  GetPointsRun.mk
    (points.map (fun p => LookupRequest.mk (imageDataOf base64Image) p.description))
    (promiseAll (points.map (fun p => lookup (imageDataOf base64Image) p.description)))

/-- Embedding of the scheduling loop of handleMoveCursorInSequence
(part_003 lines 278-296): walk locations and points in lockstep,
accumulate `cumulativeDelay += points[i].delay * 1000` for every index,
and schedule `raiseMoveCursorEvent(x, y)` at the cumulative delay only
when the extracted point is truthy. -/
def scheduleEvents : ℚ → List LookupJson → List CursorPoint → List CursorEvent
  | _, [], _ => []
  | _, _ :: _, [] => []
  | c, loc :: locs, pt :: pts =>
    match extractPoint loc with
    | some p =>
        CursorEvent.mk (c + pt.delay * 1000) p.x p.y ::
          scheduleEvents (c + pt.delay * 1000) locs pts
    | none => scheduleEvents (c + pt.delay * 1000) locs pts

/-- Embedding of handleMoveCursorInSequence (part_003 lines 261-299):
a null tool call returns immediately; only functionCalls[0] is
examined and it must be named move_cursor_sequence; the sequence is
processed only when points is non-empty and this.screenStream is set;
exactly one frame is captured, all lookups run against it, and the
scheduling loop runs on the resolved locations.  A rejected capture or
a rejected Promise.all aborts before any event is scheduled. -/
def handleMoveCursorInSequence (env : VisionEnv) (screenStream : Bool)
    (toolCall : Option ToolCall) : RunResult :=
  match toolCall with
  | none => emptyRun
  | some tc =>
    match tc.functionCalls with
    | [] => emptyRun
    | fc :: _ =>
      if fc.name = "move_cursor_sequence" then
        if 0 < fc.args.points.length ∧ screenStream = true then
          match env.captureResult with
          | none => emptyRun
          | some lastCapturedFrame =>
            let r := getPointsFromImage env.lookup lastCapturedFrame fc.args.points
            match r.resolved with
            | none => RunResult.mk [lastCapturedFrame] r.requests []
            | some locations =>
                RunResult.mk [lastCapturedFrame] r.requests
                  (scheduleEvents 0 locations fc.args.points)
        else emptyRun
      else emptyRun

/-- Concrete vision environment for the round-trip scenario: a captured
frame on which the lookup resolves "pad" to [100, 200] and "button" to
[400, 500] (normalized [row, col]). -/
def envC1 : VisionEnv :=
  VisionEnv.mk (some "frameC1")
    (fun _ d =>
      if d = "pad" then LookupOutcome.ok (LookupJson.obj (some (RPoint.mk 100 200)))
      else if d = "button" then LookupOutcome.ok (LookupJson.obj (some (RPoint.mk 400 500)))
      else LookupOutcome.err)

/-- Concrete tool call for the round-trip scenario: one
move_cursor_sequence call with points ("pad", delay 0) and
("button", delay 3). -/
def tcC1 : ToolCall :=
  ToolCall.mk [FunctionCall.mk "move_cursor_sequence"
    (FunctionArgs.mk [CursorPoint.mk "pad" 0, CursorPoint.mk "button" 3])]

/-- Claim C1: the round-trip tool call with points ("pad", 0) and
("button", 3), where the vision lookup resolves "pad" to [100, 200]
and "button" to [400, 500] ([row, col]), yields exactly two cursor
events: one at cumulative delay 0 ms (0 s) with x = 200, y = 100, and
one at 3000 ms (3 s) with x = 500, y = 400 (x = col, y = row). -/
theorem c1_round_trip :
    (handleMoveCursorInSequence envC1 true (some tcC1)).events
      = [CursorEvent.mk 0 200 100, CursorEvent.mk 3000 500 400] := by
  simp [handleMoveCursorInSequence, getPointsFromImage, promiseAll, scheduleEvents,
    extractPoint, envC1, tcC1, emptyRun]
  norm_num

/-- If any per-point promise rejects, Promise.all rejects. -/
lemma promiseAll_eq_none {outs : List LookupOutcome}
    (h : LookupOutcome.err ∈ outs) : promiseAll outs = none := by
  induction outs with
  | nil => cases h
  | cons o os ih =>
    cases o with
    | ok j =>
      rcases List.mem_cons.mp h with h1 | h2
      · cases h1
      · simp [promiseAll, ih h2]
    | err => simp [promiseAll]

/-- Claim C9: the choreographer examines only functionCalls[0].
Part one: cursor events are emitted only when the tool call is present,
its functionCalls list is non-empty, and its head is named
move_cursor_sequence.  Part two: whenever the first function call has a
different name, the run is empty regardless of the later entries, so a
move_cursor_sequence call at a later index produces no cursor events. -/
theorem c9_only_first_function_call :
    (∀ (env : VisionEnv) (screenStream : Bool) (toolCall : Option ToolCall),
        (handleMoveCursorInSequence env screenStream toolCall).events ≠ [] →
        ∃ fc rest, toolCall = some (ToolCall.mk (fc :: rest)) ∧
          fc.name = "move_cursor_sequence")
    ∧ (∀ (env : VisionEnv) (screenStream : Bool) (fc : FunctionCall)
        (rest : List FunctionCall), fc.name ≠ "move_cursor_sequence" →
        handleMoveCursorInSequence env screenStream (some (ToolCall.mk (fc :: rest)))
          = emptyRun) := by
  constructor
  · intro env screenStream toolCall h
    match toolCall with
    | none => simp [handleMoveCursorInSequence, emptyRun] at h
    | some (ToolCall.mk []) => simp [handleMoveCursorInSequence, emptyRun] at h
    | some (ToolCall.mk (fc :: rest)) =>
      refine ⟨fc, rest, rfl, ?_⟩
      by_contra hname
      simp [handleMoveCursorInSequence, hname, emptyRun] at h
  · intro env screenStream fc rest hname
    simp [handleMoveCursorInSequence, hname]

/-- Environment for the C9 witness: lookups always fail (irrelevant,
since the call must be ignored before any lookup). -/
def envC9 : VisionEnv :=
  VisionEnv.mk (some "frameC9") (fun _ _ => LookupOutcome.err)

/-- A first function call with a different name. -/
def fcOtherC9 : FunctionCall :=
  FunctionCall.mk "different_tool" (FunctionArgs.mk [CursorPoint.mk "pad" 0])

/-- A move_cursor_sequence call sitting at index 1. -/
def fcMoveC9 : FunctionCall :=
  FunctionCall.mk "move_cursor_sequence" (FunctionArgs.mk [CursorPoint.mk "pad" 0])

/-- Witness for C9: a request whose first call is named differently and
whose second call is move_cursor_sequence produces no cursor events. -/
theorem c9_witness :
    handleMoveCursorInSequence envC9 true (some (ToolCall.mk [fcOtherC9, fcMoveC9]))
      = emptyRun :=
  c9_only_first_function_call.2 envC9 true fcOtherC9 [fcMoveC9] (by decide)

/-- Claim C7: whenever a cursor-sequence call is actually processed
(head call named move_cursor_sequence, non-empty points, screen stream
present, capture succeeded with some frame), exactly one frame is
captured and every point issues one vision lookup against that same
frame; no per-point capture happens. -/
theorem c7_single_frame (env : VisionEnv) (fc : FunctionCall)
    (rest : List FunctionCall)
    (hname : fc.name = "move_cursor_sequence")
    (hpts : fc.args.points ≠ [])
    (frame : String) (hcap : env.captureResult = some frame) :
    (handleMoveCursorInSequence env true (some (ToolCall.mk (fc :: rest)))).capturedFrames
        = [frame]
    ∧ (handleMoveCursorInSequence env true (some (ToolCall.mk (fc :: rest)))).lookupsIssued
        = fc.args.points.map (fun p => LookupRequest.mk (imageDataOf frame) p.description) := by
  have hlen : 0 < fc.args.points.length := List.length_pos.mpr hpts
  cases hall : promiseAll (fc.args.points.map
      (fun p => env.lookup (imageDataOf frame) p.description)) with
  | none =>
    simp [handleMoveCursorInSequence, hname, hlen, hcap, getPointsFromImage, hall]
  | some locations =>
    simp [handleMoveCursorInSequence, hname, hlen, hcap, getPointsFromImage, hall]

/-- Environment for the C7 witness. -/
def envC7 : VisionEnv :=
  VisionEnv.mk (some "frameC7") (fun _ _ => LookupOutcome.err)

/-- Function call for the C7 witness. -/
def fcC7 : FunctionCall :=
  FunctionCall.mk "move_cursor_sequence"
    (FunctionArgs.mk [CursorPoint.mk "pad" 0, CursorPoint.mk "button" 3])

/-- Witness for C7 at a concrete processed call: one captured frame,
one lookup per point, all against the same frame. -/
theorem c7_witness :
    (handleMoveCursorInSequence envC7 true (some (ToolCall.mk (fcC7 :: [])))).capturedFrames
        = ["frameC7"]
    ∧ (handleMoveCursorInSequence envC7 true (some (ToolCall.mk (fcC7 :: [])))).lookupsIssued
        = fcC7.args.points.map
            (fun p => LookupRequest.mk (imageDataOf "frameC7") p.description) :=
  c7_single_frame envC7 fcC7 [] rfl (by decide) "frameC7" rfl

/-- Vision environment for the C2 counterexample: the lookup for "pad"
rejects (or returns unparseable output), the lookup for "button"
resolves to [400, 500]. -/
def envC2 : VisionEnv :=
  VisionEnv.mk (some "frameC2")
    (fun _ d =>
      if d = "button" then LookupOutcome.ok (LookupJson.obj (some (RPoint.mk 400 500)))
      else LookupOutcome.err)

/-- Tool call for the C2 counterexample: two points, ("pad", 0) and
("button", 3). -/
def tcC2 : ToolCall :=
  ToolCall.mk [FunctionCall.mk "move_cursor_sequence"
    (FunctionArgs.mk [CursorPoint.mk "pad" 0, CursorPoint.mk "button" 3])]

/-- Counterexample to claim C2 as stated.  The premise of the claim
holds at this input: a two-point sequence in which the lookup for "pad"
fails while the lookup for "button" succeeds.  The claim demands that
the "button" cursor event still be emitted at its cumulative delay, but
the code joins the per-point lookups with Promise.all, so the single
rejection cancels the whole sequence and no cursor event at all is
emitted. -/
theorem c2_counterexample :
    envC2.lookup (imageDataOf "frameC2") "pad" = LookupOutcome.err
    ∧ envC2.lookup (imageDataOf "frameC2") "button"
        = LookupOutcome.ok (LookupJson.obj (some (RPoint.mk 400 500)))
    ∧ (handleMoveCursorInSequence envC2 true (some tcC2)).events = [] := by
  refine ⟨by decide, by decide, ?_⟩
  simp [handleMoveCursorInSequence, getPointsFromImage, promiseAll, envC2, tcC2,
    imageDataOf, includesDataImage, containsSeq, startsWithSeq, emptyRun]

/-- Claim C2 as amended: a lookup failure (rejected promise or
unparseable output) for any point of a processed cursor sequence
cancels the entire sequence — no cursor event is emitted for any point,
because the lookups are joined with Promise.all. -/
theorem c2_lookup_failure_cancels_sequence (env : VisionEnv) (screenStream : Bool)
    (fc : FunctionCall) (rest : List FunctionCall) (frame : String)
    (hcap : env.captureResult = some frame)
    (p : CursorPoint) (hp : p ∈ fc.args.points)
    (herr : env.lookup (imageDataOf frame) p.description = LookupOutcome.err) :
    (handleMoveCursorInSequence env screenStream
        (some (ToolCall.mk (fc :: rest)))).events = [] := by
  by_cases hname : fc.name = "move_cursor_sequence"
  · by_cases hcond : 0 < fc.args.points.length ∧ screenStream = true
    · have hmem : LookupOutcome.err ∈ fc.args.points.map
          (fun q => env.lookup (imageDataOf frame) q.description) := by
        have hx := List.mem_map_of_mem
          (fun q => env.lookup (imageDataOf frame) q.description) hp
        simpa [herr] using hx
      have hall := promiseAll_eq_none hmem
      simp [handleMoveCursorInSequence, hname, hcond.1, hcond.2, hcap,
        getPointsFromImage, hall]
    · simp [handleMoveCursorInSequence, hname, hcond, emptyRun]
  · simp [handleMoveCursorInSequence, hname, emptyRun]

/-- Witness for the amended C2 at the concrete counterexample input:
with the "pad" lookup failing, the whole sequence emits nothing. -/
theorem c2_witness :
    (handleMoveCursorInSequence envC2 true (some tcC2)).events = [] :=
  c2_lookup_failure_cancels_sequence envC2 true
    (FunctionCall.mk "move_cursor_sequence"
      (FunctionArgs.mk [CursorPoint.mk "pad" 0, CursorPoint.mk "button" 3]))
    [] "frameC2" rfl (CursorPoint.mk "pad" 0) (by decide) (by decide)

/-- The running sum of the declared per-point delays, each converted to
milliseconds, up to and including each point, starting from an
accumulator c.  This follows the wording of the specification and is
compared against the scheduling loop of the source. -/
def cumulativeDelaysMsFrom : ℚ → List CursorPoint → List ℚ
  | _, [] => []
  | c, p :: ps => (c + p.delay * 1000) :: cumulativeDelaysMsFrom (c + p.delay * 1000) ps

/-- Total declared delay of a point list, in milliseconds. -/
def totalMs (points : List CursorPoint) : ℚ :=
  (points.map (fun p => p.delay * 1000)).sum

/-- The scheduled emission times of the source loop are exactly the
running sums at the indices whose extracted point is truthy. -/
lemma scheduleEvents_map_atMs (locs : List LookupJson) :
    ∀ (pts : List CursorPoint) (c : ℚ),
      (scheduleEvents c locs pts).map CursorEvent.atMs
        = (List.zip (cumulativeDelaysMsFrom c pts) locs).filterMap
            (fun dl => (extractPoint dl.2).map (fun _ => dl.1)) := by
  induction locs with
  | nil =>
    intro pts c
    cases pts <;> simp [scheduleEvents, cumulativeDelaysMsFrom]
  | cons l ls ih =>
    intro pts c
    cases pts with
    | nil => simp [scheduleEvents, cumulativeDelaysMsFrom]
    | cons p ps =>
      cases hl : extractPoint l <;>
        simp [scheduleEvents, cumulativeDelaysMsFrom, hl, ih]

/-- With non-negative delays, every event scheduled from accumulator c
fires no earlier than c. -/
lemma scheduleEvents_le (locs : List LookupJson) :
    ∀ (pts : List CursorPoint) (c : ℚ), (∀ p ∈ pts, 0 ≤ p.delay) →
      ∀ e ∈ scheduleEvents c locs pts, c ≤ e.atMs := by
  induction locs with
  | nil =>
    intro pts c _ e he
    cases pts <;> simp [scheduleEvents] at he
  | cons l ls ih =>
    intro pts c hnn e he
    cases pts with
    | nil => simp [scheduleEvents] at he
    | cons p ps =>
      have hd : 0 ≤ p.delay := hnn p (List.mem_cons_self p ps)
      have hc : c ≤ c + p.delay * 1000 := by nlinarith
      have hnn' : ∀ q ∈ ps, 0 ≤ q.delay := fun q hq => hnn q (List.mem_cons_of_mem p hq)
      cases hl : extractPoint l with
      | some rp =>
        simp only [scheduleEvents, hl, List.mem_cons] at he
        rcases he with he | he
        · rw [he]
          exact hc
        · exact le_trans hc (ih ps (c + p.delay * 1000) hnn' e he)
      | none =>
        simp only [scheduleEvents, hl] at he
        exact le_trans hc (ih ps (c + p.delay * 1000) hnn' e he)

/-- With non-negative delays, the scheduled emission times are
non-decreasing in point order. -/
lemma scheduleEvents_chain (locs : List LookupJson) :
    ∀ (pts : List CursorPoint) (c : ℚ), (∀ p ∈ pts, 0 ≤ p.delay) →
      List.Chain' (fun a b => a ≤ b)
        ((scheduleEvents c locs pts).map CursorEvent.atMs) := by
  induction locs with
  | nil =>
    intro pts c _
    cases pts <;> simp [scheduleEvents]
  | cons l ls ih =>
    intro pts c hnn
    cases pts with
    | nil => simp [scheduleEvents]
    | cons p ps =>
      have hnn' : ∀ q ∈ ps, 0 ≤ q.delay := fun q hq => hnn q (List.mem_cons_of_mem p hq)
      cases hl : extractPoint l with
      | none => simpa [scheduleEvents, hl] using ih ps (c + p.delay * 1000) hnn'
      | some rp =>
        simp only [scheduleEvents, hl, List.map_cons]
        refine List.chain'_cons'.mpr ⟨?_, ih ps (c + p.delay * 1000) hnn'⟩
        intro b hb
        have hbmem : b ∈ (scheduleEvents (c + p.delay * 1000) ls ps).map CursorEvent.atMs :=
          List.mem_of_mem_head? hb
        rcases List.mem_map.mp hbmem with ⟨e, he, hbe⟩
        have := scheduleEvents_le ls ps (c + p.delay * 1000) hnn' e he
        rw [← hbe]
        exact this

/-- Claim C4: for every point list with non-negative declared delays
(paired with any resolved locations), the emission time of each
scheduled cursor event equals the running sum of the declared delays up
to and including that point, converted to milliseconds, and the
sequence of emission times is non-decreasing in point order. -/
theorem c4_cumulative_delays (points : List CursorPoint) (locations : List LookupJson)
    (hnn : ∀ p ∈ points, 0 ≤ p.delay) :
    (scheduleEvents 0 locations points).map CursorEvent.atMs
      = (List.zip (cumulativeDelaysMsFrom 0 points) locations).filterMap
          (fun dl => (extractPoint dl.2).map (fun _ => dl.1))
    ∧ List.Chain' (fun a b => a ≤ b)
        ((scheduleEvents 0 locations points).map CursorEvent.atMs) :=
  ⟨scheduleEvents_map_atMs locations points 0,
   scheduleEvents_chain locations points 0 hnn⟩

/-- Concrete points for the C4 witness: delays 0, 2 and 3 seconds. -/
def ptsC4 : List CursorPoint :=
  [CursorPoint.mk "menu" 0, CursorPoint.mk "panel" 2, CursorPoint.mk "profile" 3]

/-- Concrete locations for the C4 witness: the middle lookup resolves to
nothing. -/
def locsC4 : List LookupJson :=
  [LookupJson.obj (some (RPoint.mk 10 20)), LookupJson.obj none,
   LookupJson.arr [RPoint.mk 30 40]]

/-- Witness for C4 at concrete non-negative delays. -/
theorem c4_witness :
    (scheduleEvents 0 locsC4 ptsC4).map CursorEvent.atMs
      = (List.zip (cumulativeDelaysMsFrom 0 ptsC4) locsC4).filterMap
          (fun dl => (extractPoint dl.2).map (fun _ => dl.1))
    ∧ List.Chain' (fun a b => a ≤ b)
        ((scheduleEvents 0 locsC4 ptsC4).map CursorEvent.atMs) :=
  c4_cumulative_delays ptsC4 locsC4 (by
    intro p hp
    simp [ptsC4] at hp
    rcases hp with hp | hp | hp <;> rw [hp] <;> norm_num)

/-- Splitting the scheduling loop at a prefix of equal length shifts the
accumulator by the total declared delay of the prefix. -/
lemma scheduleEvents_append (A : List LookupJson) :
    ∀ (P : List CursorPoint) (B : List LookupJson) (Q : List CursorPoint) (c : ℚ),
      A.length = P.length →
      scheduleEvents c (A ++ B) (P ++ Q)
        = scheduleEvents c A P ++ scheduleEvents (c + totalMs P) B Q := by
  induction A with
  | nil =>
    intro P B Q c hlen
    have hP : P = [] := List.length_eq_zero.mp hlen.symm
    subst hP
    simp [scheduleEvents, totalMs]
  | cons a as ih =>
    intro P B Q c hlen
    cases P with
    | nil => simp at hlen
    | cons p ps =>
      have hlen' : as.length = ps.length := by simpa using hlen
      cases ha : extractPoint a <;>
        simp [scheduleEvents, ha, ih ps B Q (c + p.delay * 1000) hlen', totalMs,
          add_assoc]

/-- Claim C10: in the scheduling loop, a point whose lookup completed
without a usable (truthy) resolved point emits no cursor event, but its
declared delay still advances the cumulative delay: with a falsy entry
at a slot the schedule is the prefix events followed by the suffix
events computed from the cumulative delay that includes the skipped
point, and with a resolving entry at the same slot the only difference
is the one extra event for that slot — the suffix events are
identical. -/
theorem c10_falsy_point_skipped (A B : List LookupJson) (P Q : List CursorPoint)
    (hlen : A.length = P.length) (lnone lres : LookupJson) (p0 : CursorPoint)
    (hnone : extractPoint lnone = none) (rp : RPoint)
    (hres : extractPoint lres = some rp) :
    scheduleEvents 0 (A ++ lnone :: B) (P ++ p0 :: Q)
      = scheduleEvents 0 A P
          ++ scheduleEvents (totalMs P + p0.delay * 1000) B Q
    ∧ scheduleEvents 0 (A ++ lres :: B) (P ++ p0 :: Q)
      = scheduleEvents 0 A P
          ++ CursorEvent.mk (totalMs P + p0.delay * 1000) rp.x rp.y ::
              scheduleEvents (totalMs P + p0.delay * 1000) B Q := by
  constructor
  · rw [scheduleEvents_append A P (lnone :: B) (p0 :: Q) 0 hlen]
    simp [scheduleEvents, hnone, zero_add]
  · rw [scheduleEvents_append A P (lres :: B) (p0 :: Q) 0 hlen]
    simp [scheduleEvents, hres, zero_add]

/-- Concrete data for the C10 witness. -/
def aC10 : List LookupJson := [LookupJson.obj (some (RPoint.mk 10 20))]

/-- Concrete suffix locations for the C10 witness. -/
def bC10 : List LookupJson := [LookupJson.obj (some (RPoint.mk 30 40))]

/-- Concrete prefix points for the C10 witness. -/
def pC10 : List CursorPoint := [CursorPoint.mk "menu" 2]

/-- Concrete suffix points for the C10 witness. -/
def qC10 : List CursorPoint := [CursorPoint.mk "profile" 5]

/-- Witness for C10 at a concrete slot: a falsy middle entry versus a
resolving one. -/
theorem c10_witness :
    scheduleEvents 0 (aC10 ++ LookupJson.obj none :: bC10)
        (pC10 ++ CursorPoint.mk "panel" 1 :: qC10)
      = scheduleEvents 0 aC10 pC10
          ++ scheduleEvents (totalMs pC10 + (CursorPoint.mk "panel" 1).delay * 1000)
              bC10 qC10
    ∧ scheduleEvents 0 (aC10 ++ LookupJson.obj (some (RPoint.mk 50 60)) :: bC10)
        (pC10 ++ CursorPoint.mk "panel" 1 :: qC10)
      = scheduleEvents 0 aC10 pC10
          ++ CursorEvent.mk (totalMs pC10 + (CursorPoint.mk "panel" 1).delay * 1000)
              (RPoint.mk 50 60).x (RPoint.mk 50 60).y ::
              scheduleEvents (totalMs pC10 + (CursorPoint.mk "panel" 1).delay * 1000)
                bC10 qC10 :=
  c10_falsy_point_skipped aC10 bC10 pC10 qC10 rfl (LookupJson.obj none)
    (LookupJson.obj (some (RPoint.mk 50 60))) (CursorPoint.mk "panel" 1) rfl
    (RPoint.mk 50 60) rfl

/-- Connection state of the protocol session (spec section 4.1). -/
inductive SessionState where
  | idle
  | connecting
  | active
  | closed
deriving Repr, DecidableEq

/-- A realtime media chunk as sent by sendRealtimeInput. -/
structure GenerativeContentBlob where
  mimeType : String
  data : String
deriving Repr, DecidableEq

/-- An outbound wire message written to the transport. -/
inductive WireMessage where
  | setup
  | clientContent (text : String)
  | realtime (chunk : GenerativeContentBlob)
deriving Repr, DecidableEq

/-- Errors surfaced synchronously by the client operations. -/
inductive ClientError where
  | notConnected
deriving Repr, DecidableEq

/-- Modelled from the spec: ws-client.ts (MultimodalLiveClient) is not
in the source snapshot.  The protocol client owns at most one transport
connection (identified by a number) and a log of the wire messages it
has written. -/
structure WsClient where
  state : SessionState
  transport : Option Nat
  sent : List WireMessage
deriving Repr, DecidableEq

/-- The world of transport connections: a counter for fresh transport
identities and the set of transports currently open (not torn down). -/
structure TransportWorld where
  nextId : Nat
  openTransports : List Nat
deriving Repr, DecidableEq

/-- Modelled from the spec: MultimodalLiveClient.disconnect (ws-client.ts,
missing from the snapshot) closes the transport if one is open, always
leaves the session state Closed, never throws, and is idempotent. -/
def MultimodalLiveClient.disconnect (c : WsClient) (w : TransportWorld) :
    WsClient × TransportWorld :=
  match c.transport with
  | some t =>
      (WsClient.mk SessionState.closed none c.sent,
       TransportWorld.mk w.nextId (w.openTransports.erase t))
  | none => (WsClient.mk SessionState.closed none c.sent, w)

/-- Modelled from the spec: MultimodalLiveClient.connect (ws-client.ts,
missing from the snapshot), success path — opens a fresh transport,
writes the setup message built from the config, and moves the session
to Active once the transport confirms open. -/
def MultimodalLiveClient.connect (c : WsClient) (w : TransportWorld) :
    WsClient × TransportWorld :=
  (WsClient.mk SessionState.active (some w.nextId) (c.sent ++ [WireMessage.setup]),
   TransportWorld.mk (w.nextId + 1) (w.openTransports ++ [w.nextId]))

/-- Modelled from the spec: MultimodalLiveClient.send (ws-client.ts,
missing from the snapshot) frames the text as a single client-content
message and writes it. -/
def MultimodalLiveClient.send (c : WsClient) (text : String) : WsClient :=
  WsClient.mk c.state c.transport (c.sent ++ [WireMessage.clientContent text])

/-- Modelled from the spec: MultimodalLiveClient.sendRealtimeInput
(ws-client.ts, missing from the snapshot) fails with NotConnected when
the session is not Active and writes nothing; otherwise it writes each
chunk as its own realtime-input wire message. -/
def MultimodalLiveClient.sendRealtimeInput (c : WsClient)
    (chunks : List GenerativeContentBlob) : WsClient × Option ClientError :=
  if c.state = SessionState.active then
    (WsClient.mk c.state c.transport (c.sent ++ chunks.map WireMessage.realtime), none)
  else (c, some ClientError.notConnected)

/-- Modelled from the spec: the AudioStreamer (audio-streamer.ts,
missing from the snapshot) queues scheduled-but-not-yet-played PCM
buffers; stop cancels all of them. -/
structure AudioStreamer where
  scheduledBuffers : List (List Nat)
deriving Repr, DecidableEq

/-- State of the ClippoService facade (part_003): the connected flag,
the streamed-message accumulator, whether a screen stream is held, the
latest values of the content / tool / cursor subjects, the audio
streamer (none when initialization failed), the cursor-event timers
scheduled and not yet fired, and the owned wsClient. -/
structure ClippoState where
  isConnected : Bool
  streamedMessage : String
  screenStream : Bool
  contentLast : Option String
  toolLast : Option (Option ToolCall)
  cursorPosition : Option (ℚ × ℚ)
  audioStreamer : Option AudioStreamer
  pendingCursorTimers : List CursorEvent
  wsClient : WsClient
deriving Repr, DecidableEq

/-- Embedding of ClippoService.send (part_003 lines 415-428): throw
NotConnected when the facade is not connected; otherwise reset the
streamed message, drop a falsy (empty) message, and for a non-empty
message build a single text part and write it through wsClient.send. -/
def ClippoService.send (s : ClippoState) (message : String) :
    ClippoState × Option ClientError :=
  if s.isConnected = false then (s, some ClientError.notConnected)
  else
    let s1 := ClippoState.mk s.isConnected "" s.screenStream s.contentLast s.toolLast
      s.cursorPosition s.audioStreamer s.pendingCursorTimers s.wsClient
    if message = "" then (s1, none)
    else
      (ClippoState.mk s1.isConnected s1.streamedMessage s1.screenStream s1.contentLast
        s1.toolLast s1.cursorPosition s1.audioStreamer s1.pendingCursorTimers
        (MultimodalLiveClient.send s1.wsClient message), none)

/-- Embedding of ClippoService.sendRealtimeInput (part_003 lines
430-432): an unconditional forward to wsClient.sendRealtimeInput, with
no connectivity check of its own. -/
def ClippoService.sendRealtimeInput (s : ClippoState)
    (chunks : List GenerativeContentBlob) : ClippoState × Option ClientError :=
  let r := MultimodalLiveClient.sendRealtimeInput s.wsClient chunks
  (ClippoState.mk s.isConnected s.streamedMessage s.screenStream s.contentLast
    s.toolLast s.cursorPosition s.audioStreamer s.pendingCursorTimers r.1, r.2)

/-- Embedding of ClippoService.start (part_003 lines 369-401), success
path: disconnect the wsClient first, then connect with the stored
config, mark the facade connected, then acquire the screen stream. -/
def ClippoService.start (s : ClippoState) (w : TransportWorld) :
    ClippoState × TransportWorld :=
  let d := MultimodalLiveClient.disconnect s.wsClient w
  let k := MultimodalLiveClient.connect d.1 d.2
  (ClippoState.mk true s.streamedMessage true s.contentLast s.toolLast
    s.cursorPosition s.audioStreamer s.pendingCursorTimers k.1, k.2)

/-- Claim C3: for every chunk list, calling the facade
sendRealtimeInput while the session state is not Active fails with
NotConnected and leaves the whole facade state — in particular the list
of messages written to the transport — unchanged. -/
theorem c3_sendRealtimeInput_not_active (s : ClippoState)
    (chunks : List GenerativeContentBlob)
    (h : s.wsClient.state ≠ SessionState.active) :
    ClippoService.sendRealtimeInput s chunks = (s, some ClientError.notConnected) := by
  simp [ClippoService.sendRealtimeInput, MultimodalLiveClient.sendRealtimeInput, h]

/-- A concrete disconnected facade state: fresh service, wsClient idle. -/
def clippoIdle : ClippoState :=
  ClippoState.mk false "" false none none none (some (AudioStreamer.mk [])) []
    (WsClient.mk SessionState.idle none [])

/-- Witness for C3: on the fresh disconnected state, sending one audio
chunk fails with NotConnected and changes nothing. -/
theorem c3_witness :
    ClippoService.sendRealtimeInput clippoIdle
        [GenerativeContentBlob.mk "audio/pcm" "QUJD"]
      = (clippoIdle, some ClientError.notConnected) :=
  c3_sendRealtimeInput_not_active clippoIdle
    [GenerativeContentBlob.mk "audio/pcm" "QUJD"] (by decide)

/-- A concrete connected facade state with an empty transport log. -/
def clippoActiveC5 : ClippoState :=
  ClippoState.mk true "" true none none none (some (AudioStreamer.mk [])) []
    (WsClient.mk SessionState.active (some 0) [])

/-- Counterexample to claim C5 as stated: with the session Active, the
claim requires every text message to be framed and written as a single
client-content message; for the empty message the code hits
`if (!message) return` and writes nothing (and raises no error). -/
theorem c5_counterexample :
    (ClippoService.send clippoActiveC5 "").2 = none
    ∧ (ClippoService.send clippoActiveC5 "").1.wsClient.sent = [] := by
  constructor <;> decide

/-- Claim C5 as amended: when the facade is not connected, send fails
with NotConnected and changes nothing; when connected, a non-empty
message is framed and written as exactly one client-content message
with no error; a falsy (empty) message is silently dropped after the
connectivity check, with nothing written and no error. -/
theorem c5_send_behavior (s : ClippoState) (message : String) :
    (s.isConnected = false →
        ClippoService.send s message = (s, some ClientError.notConnected))
    ∧ (s.isConnected = true → message ≠ "" →
        (ClippoService.send s message).2 = none
        ∧ (ClippoService.send s message).1.wsClient.sent
            = s.wsClient.sent ++ [WireMessage.clientContent message])
    ∧ (s.isConnected = true → message = "" →
        (ClippoService.send s message).2 = none
        ∧ (ClippoService.send s message).1.wsClient.sent = s.wsClient.sent) := by
  refine ⟨?_, ?_, ?_⟩
  · intro h
    simp [ClippoService.send, h]
  · intro hc hm
    simp [ClippoService.send, hc, hm, MultimodalLiveClient.send]
  · intro hc hm
    simp [ClippoService.send, hc, hm]

/-- Witness for the amended C5: on a concrete connected state, a
non-empty message is written as one client-content message without
error. -/
theorem c5_witness :
    (ClippoService.send clippoActiveC5 "Write a poem.").2 = none
    ∧ (ClippoService.send clippoActiveC5 "Write a poem.").1.wsClient.sent
        = clippoActiveC5.wsClient.sent
            ++ [WireMessage.clientContent "Write a poem."] :=
  (c5_send_behavior clippoActiveC5 "Write a poem.").2.1 rfl (by decide)

/-- One facade start from the fresh state: connect for the first time. -/
def startOnceC6 : ClippoState × TransportWorld :=
  ClippoService.start clippoIdle (TransportWorld.mk 0 [])

/-- A second facade start without an intervening disconnect. -/
def startTwiceC6 : ClippoState × TransportWorld :=
  ClippoService.start startOnceC6.1 startOnceC6.2

/-- Claim C6: calling connect twice in a row without a disconnect
leaves exactly one open transport and one Active session: the first
start opens transport 0; the second start first tears transport 0 down
and opens transport 1, so afterwards only transport 1 is open (the
first one is disconnected, not leaked) and the session is Active on
it. -/
theorem c6_connect_twice :
    startOnceC6.2.openTransports = [0]
    ∧ startTwiceC6.2.openTransports = [1]
    ∧ startTwiceC6.1.wsClient.state = SessionState.active
    ∧ startTwiceC6.1.wsClient.transport = some 1 := by
  refine ⟨by decide, by decide, by decide, by decide⟩

/-- The inbound events the wsClient listeners react to
(setupEventListeners, part_003 lines 229-260). -/
inductive WsEvent where
  | openEvent
  | logEvent (line : String)
  | contentEvent (data : String)
  | toolcallEvent (data : Option ToolCall)
  | closeEvent
  | interruptedEvent
  | audioEvent (data : List Nat)
deriving Repr, DecidableEq

/-- Embedding of the listeners registered in setupEventListeners
(part_003 lines 229-260): open and log only log; content stores the
payload in the content subject; toolcall stores the payload in the tool
subject and runs handleMoveCursorInSequence, whose scheduled events
become pending cursor timers; close clears the connected flag;
interrupted stops the audio streamer (cancelling its scheduled
buffers); audio appends the PCM chunk to the streamer queue. -/
def ClippoService.dispatchEvent (env : VisionEnv) (s : ClippoState) :
    WsEvent → ClippoState
  | WsEvent.openEvent => s
  | WsEvent.logEvent _ => s
  | WsEvent.contentEvent d =>
      ClippoState.mk s.isConnected s.streamedMessage s.screenStream (some d)
        s.toolLast s.cursorPosition s.audioStreamer s.pendingCursorTimers s.wsClient
  | WsEvent.toolcallEvent d =>
      ClippoState.mk s.isConnected s.streamedMessage s.screenStream s.contentLast
        (some d) s.cursorPosition s.audioStreamer
        (s.pendingCursorTimers ++ (handleMoveCursorInSequence env s.screenStream d).events)
        s.wsClient
  | WsEvent.closeEvent =>
      ClippoState.mk false s.streamedMessage s.screenStream s.contentLast
        s.toolLast s.cursorPosition s.audioStreamer s.pendingCursorTimers s.wsClient
  | WsEvent.interruptedEvent =>
      ClippoState.mk s.isConnected s.streamedMessage s.screenStream s.contentLast
        s.toolLast s.cursorPosition (s.audioStreamer.map (fun _ => AudioStreamer.mk []))
        s.pendingCursorTimers s.wsClient
  | WsEvent.audioEvent d =>
      ClippoState.mk s.isConnected s.streamedMessage s.screenStream s.contentLast
        s.toolLast s.cursorPosition
        (s.audioStreamer.map (fun a => AudioStreamer.mk (a.scheduledBuffers ++ [d])))
        s.pendingCursorTimers s.wsClient

/-- Claim C8: handling an Interrupted event cancels only pending audio
playback — the scheduled buffers of the audio streamer are cleared —
while the pending cursor-event timers of an in-flight tool-call
sequence, the connected flag, the content subject and the tool subject
are all unchanged. -/
theorem c8_interrupted_only_audio (env : VisionEnv) (s : ClippoState) :
    (ClippoService.dispatchEvent env s WsEvent.interruptedEvent).pendingCursorTimers
        = s.pendingCursorTimers
    ∧ (ClippoService.dispatchEvent env s WsEvent.interruptedEvent).isConnected
        = s.isConnected
    ∧ (ClippoService.dispatchEvent env s WsEvent.interruptedEvent).contentLast
        = s.contentLast
    ∧ (ClippoService.dispatchEvent env s WsEvent.interruptedEvent).toolLast
        = s.toolLast
    ∧ (ClippoService.dispatchEvent env s WsEvent.interruptedEvent).audioStreamer
        = s.audioStreamer.map (fun _ => AudioStreamer.mk []) := by
  refine ⟨rfl, rfl, rfl, rfl, rfl⟩
